import Mathlib

/-!
Shallow embedding of the elevation compositing core of
`src/osgEarth/ElevationLayer.cpp` (osgEarth), together with proofs about it.

Heights are single-precision floats in the source. A float is modelled as
either NaN or an exact rational; rounding of sums is abstracted to exact
rational addition (no property proved below depends on rounded arithmetic),
while comparisons, the `osg::equivalent` tolerance test and the
`NO_DATA_VALUE` sentinel (`-FLT_MAX`) are modelled exactly.

External collaborators (tile-pyramid profile math, spatial reference
systems, drivers, caches, vertical-datum transforms, progress callbacks)
are modelled as explicit parameters, mirroring the narrow interfaces the
source uses; the control flow of the core itself is translated line by
line from the source.
-/

/-- Model of a single-precision height sample: NaN or an exact rational. -/
inductive FloatVal where
  | nan : FloatVal
  | val : ℚ → FloatVal
deriving DecidableEq

/-- Largest finite single-precision value (2^128 - 2^104, written out so
that the kernel can evaluate comparisons against it);
`NO_DATA_VALUE` is `-FLT_MAX`. -/
def FLT_MAX : ℚ := 340282346638528859811704183484516925440

/-- Global sentinel for an absent sample (`NO_DATA_VALUE` in osgEarth). -/
def NO_DATA_VALUE : FloatVal := FloatVal.val (-FLT_MAX)

/-- Model of `osg::isNaN`. -/
def isNaNF : FloatVal → Bool
  | FloatVal.nan => true
  | FloatVal.val _ => false

/-- C++ `<` on floats: any comparison against NaN is false. -/
def flt : FloatVal → FloatVal → Bool
  | FloatVal.val a, FloatVal.val b => decide (a < b)
  | _, _ => false

/-- Model of `osg::equivalent(lhs, rhs)` with the default epsilon `1e-6`:
`delta = rhs - lhs; return delta < 0.0 ? delta >= -epsilon : delta <= epsilon`.
With a NaN operand both comparisons are false, so the result is false,
which the model reproduces. -/
def fequivalent : FloatVal → FloatVal → Bool
  | FloatVal.val lhs, FloatVal.val rhs =>
      let delta := rhs - lhs
      if delta < 0 then decide (-(1 / 1000000 : ℚ) ≤ delta)
      else decide (delta ≤ (1 / 1000000 : ℚ))
  | _, _ => false

/-- C++ `+` on floats, rounding abstracted to exact rational addition. -/
def fadd : FloatVal → FloatVal → FloatVal
  | FloatVal.nan, _ => FloatVal.nan
  | FloatVal.val _, FloatVal.nan => FloatVal.nan
  | FloatVal.val a, FloatVal.val b => FloatVal.val (a + b)

/-- Model of `osg::HeightField`: row-major single-precision grid
(`getHeight(c, r)` reads `heightList[r*numColumns + c]`) plus the origin,
interval and border fields stamped by `createHeightField`. -/
structure HeightField where
  numColumns : ℕ
  numRows : ℕ
  heightList : List FloatVal
  originX : ℚ := 0
  originY : ℚ := 0
  xInterval : ℚ := 0
  yInterval : ℚ := 0
  borderWidth : ℕ := 0
deriving DecidableEq

/-- Model of the functor `NormalizeNoDataValues` (ElevationLayer.cpp lines
113-140): the layer's configured sentinel and valid range, captured at
construction from the layer. -/
structure NormalizeNoDataValues where
  noDataValue : FloatVal
  minValidValue : FloatVal
  maxValidValue : FloatVal

/-- Body of the loop of `NormalizeNoDataValues::operator()` for one sample
(line 130): `if (isNaN(v) || equivalent(v, noDataValue) || v < minValid ||
v > maxValid) v = NO_DATA_VALUE;`. -/
def normalizeValue (op : NormalizeNoDataValues) (value : FloatVal) : FloatVal :=
  if isNaNF value || fequivalent value op.noDataValue ||
      flt value op.minValidValue || flt op.maxValidValue value then
    NO_DATA_VALUE
  else value

/-- Model of `NormalizeNoDataValues::operator()(osg::ref_ptr<osg::HeightField>&)`
(lines 122-137): a null ref is left alone, otherwise every sample of the
height array is rewritten in place. -/
def NormalizeNoDataValues.run (op : NormalizeNoDataValues) :
    Option HeightField → Option HeightField
  | none => none
  | some hf => some { hf with heightList := hf.heightList.map (normalizeValue op) }

/-- Model of `validateHeightField` (lines 143-157). -/
def validateHeightField : Option HeightField → Bool
  | none => false
  | some hf =>
    if hf.numRows < 2 || 1024 < hf.numRows then false
    else if hf.numColumns < 2 || 1024 < hf.numColumns then false
    else if hf.heightList.length ≠ hf.numColumns * hf.numRows then false
    else true

/-- Model of `TileKey`: the invalid key, or (lod, x, y, profile); profiles
are identified by a number (the core only ever compares them or hands them
to external profile math, which is parameterised). -/
inductive TKey where
  | invalid : TKey
  | key : ℕ → ℕ → ℕ → ℕ → TKey
deriving DecidableEq

/-- Model of `TileKey::valid()`. -/
def TKey.isValid : TKey → Bool
  | TKey.invalid => false
  | TKey.key _ _ _ _ => true

/-- Model of `TileKey::getLOD()` (0 on the invalid key). -/
def TKey.lod : TKey → ℕ
  | TKey.invalid => 0
  | TKey.key l _ _ _ => l

/-- Model of `TileKey::createParentKey()`: invalid at LOD 0, otherwise one
level up in the pyramid. -/
def TKey.createParentKey : TKey → TKey
  | TKey.invalid => TKey.invalid
  | TKey.key 0 _ _ _ => TKey.invalid
  | TKey.key (l + 1) x y p => TKey.key l (x / 2) (y / 2) p

/-- LOD-based measure: the number of `createParentKey` steps after which a
key becomes invalid. Used to size the fuel of the parent-walk loop. -/
def TKey.depth : TKey → ℕ
  | TKey.invalid => 0
  | TKey.key l _ _ _ => l + 1

/-- Rebuild a key on another profile, as `TileKey(key.getLOD(),
key.getTileX(), key.getTileY(), haeProfile)` does in line 791 (the
accessors of the invalid key all return 0). -/
def TKey.withProfile : TKey → ℕ → TKey
  | TKey.invalid, p => TKey.key 0 0 0 p
  | TKey.key l x y _, p => TKey.key l x y p

/-- Index into the per-pixel `deltaLOD` array written by the pixel sweep of
`populateHeightFieldAndNormalMap` (lines 1027 and 1108): `r*numColumns + c`. -/
def deltaLODWriteIndex (numColumns c r : ℕ) : ℕ := r * numColumns + c

/-- Interpolation step computed per output pixel by `createNormalMap`
(line 710): `int step = 1 << (*deltaLOD)[t*h + s]` where
`h = hf->getNumRows()`. The entries are modelled as naturals (a negative
`deltaLOD` entry would make the C++ shift undefined). -/
def createNormalMapStep (hf : HeightField) (deltaLOD : List ℕ) (s t : ℕ) : ℕ :=
  1 <<< deltaLOD.getD (t * hf.numRows + s) 0

/-- Model of a progress callback: the two flags the core polls. -/
structure ProgressCallback where
  isCanceled : Bool
  needsRetry : Bool
deriving DecidableEq

/-- Model of the `TileSource` driver as seen by
`createHeightFieldFromTileSource`: a blacklist of failed keys and the
`createHeightField` entry point. `createHF` returns the grid with the
pre-cache `NormalizeNoDataValues` operation already applied, as the
`TileSource` contract requires (the op is handed to the driver in line
271). -/
structure TileSourceModel where
  blacklist : List TKey
  createHF : TKey → Option HeightField
  isOK : Bool
deriving Inhabited

instance : Inhabited HeightField := ⟨⟨0, 0, [], 0, 0, 0, 0, 0⟩⟩

/-- External collaborators of a single `ElevationLayer` used by
`createHeightFieldFromTileSource` (lines 242-308). `horizEquivToLayer key`
models `key.getProfile()->isHorizEquivalentTo(getProfile())`,
`vertEquivToLayer key` models
`key.getExtent().getSRS()->isVertEquivalentTo(getProfile()->getSRS())`,
`vertTransform` models the in-place `VerticalDatum::transform` call, and
`assembleHF` models the result of `assembleHeightField` (the 4.C
cross-profile assembler; none of the claims below exercises its interior,
so it is kept as an opaque collaborator here). -/
structure LayerModel where
  tileSource : Option TileSourceModel
  horizEquivToLayer : TKey → Bool
  mayHaveData : TKey → Bool
  vertEquivToLayer : TKey → Bool
  vertTransform : HeightField → HeightField
  assembleHF : TKey → Option HeightField

/-- Result of `createHeightFieldFromTileSource`: the returned grid, the
blacklist contents afterwards, and a ghost flag recording whether
`source->createHeightField` was invoked for the requested key. -/
structure TSResult where
  result : Option HeightField
  blacklistAfter : List TKey
  driverCalled : Bool

/-- Model of `ElevationLayer::createHeightFieldFromTileSource` (lines
242-308). -/
def createHeightFieldFromTileSource (L : LayerModel) (key : TKey)
    (progress : Option ProgressCallback) : TSResult :=
  match L.tileSource with
  | none => ⟨none, [], false⟩
  | some source =>
    -- If the key is blacklisted, fail (lines 252-257).
    if key ∈ source.blacklist then ⟨none, source.blacklist, false⟩
    -- Horizontally equivalent profiles: the quick route (lines 261-297).
    else if L.horizEquivToLayer key then
      if L.mayHaveData key = false then ⟨none, source.blacklist, false⟩
      else
        match source.createHF key with
        | some hf0 =>
          -- Convert from the source's vertical datum if needed (277-284).
          let hf1 := if L.vertEquivToLayer key = false then L.vertTransform hf0 else hf0
          ⟨some hf1, source.blacklist, true⟩
        | none =>
          -- Blacklist unless the fetch was canceled or needs retry (287-296).
          let blacklistAfter :=
            match progress with
            | none => key :: source.blacklist
            | some p =>
              if p.isCanceled = false ∧ p.needsRetry = false then key :: source.blacklist
              else source.blacklist
          ⟨none, blacklistAfter, true⟩
    -- Profiles do not match: composite via the assembler (lines 299-305).
    else ⟨L.assembleHF key, source.blacklist, false⟩

/-- Model of `CachePolicy` as consulted by `createHeightField`. -/
structure CachePolicyModel where
  cacheOnly : Bool
  cacheReadable : Bool
  cacheWriteable : Bool
  isExpired : ℤ → Bool

/-- Model of the persistent cache bin for one cache key: `readObject`
either fails (`none`) or succeeds with an optional decoded grid and the
entry's last-modified time. -/
structure CacheBinModel where
  readResult : Option (Option HeightField × ℤ)

/-- Everything `ElevationLayer::createHeightField` (lines 415-620) consults:
layer status, the memory cache (`none` = `_memCache` invalid, `some r` =
mem cache present with read result `r` for this cache key), the persistent
cache bin, the cache policy, the tile-source plumbing, the legal level
range, the no-data policy, and the external `HeightFieldUtils::
resolveInvalidHeights` routine together with the geoid selection of
lines 597-615 (folded into one function; no claim depends on its
interior). `extentOf` models `key.getExtent().getBounds` as
(xmin, ymin, xmax, ymax). -/
structure ElevLayerModel where
  statusError : Bool
  enabled : Bool
  memCache : Option (Option HeightField)
  cacheBin : Option CacheBinModel
  policy : CachePolicyModel
  tileSourceExpected : Bool
  keyInLegalRange : TKey → Bool
  layer : LayerModel
  hasProfile : Bool
  noDataPolicyMSL : Bool
  resolveInvalidHeights : HeightField → HeightField
  extentOf : TKey → ℚ × ℚ × ℚ × ℚ

/-- Result of `createHeightField`: the returned `GeoHeightField` grid
(`none` = `GeoHeightField::INVALID`), ghost lists of the grids written to
the persistent cache bin and to the memory cache during the call, and
whether the layer disabled itself. -/
structure CHFResult where
  result : Option HeightField
  binWrites : List HeightField
  memWrites : List HeightField
  disabled : Bool

/-- Origin / interval / border stamping of lines 568-576. -/
def stampHF (extent : ℚ × ℚ × ℚ × ℚ) (hf : HeightField) : HeightField :=
  { hf with
    originX := extent.1
    originY := extent.2.1
    xInterval := (extent.2.2.1 - extent.1) / ((hf.numColumns - 1 : ℕ) : ℚ)
    yInterval := (extent.2.2.2 - extent.2.1) / ((hf.numRows - 1 : ℕ) : ℚ)
    borderWidth := 0 }

/-- Post-processing of lines 592-617: under the MSL no-data policy the
invalid samples are resolved through the external routine (which carries
the geoid selection); otherwise the grid is returned unchanged. -/
def postProcessHF (env : ElevLayerModel) (hf : HeightField) : HeightField :=
  if env.noDataPolicyMSL then env.resolveInvalidHeights hf else hf

/-- Persistent-cache lookup of lines 490-508, returning (`hf`, `cachedHF`):
`hf` is the accepted unexpired grid if any, `cachedHF` is whatever grid the
read produced (retained for expiry fallback). -/
def persistentCacheLookup (env : ElevLayerModel) :
    Option HeightField × Option HeightField :=
  match env.cacheBin with
  | none => (none, none)
  | some bin =>
    if env.policy.cacheReadable then
      match bin.readResult with
      | some (obj, t) =>
        let expired := env.policy.isExpired t
        match obj with
        | some cachedHF =>
          if validateHeightField (some cachedHF) then
            if expired = false then (some cachedHF, some cachedHF)
            else (none, some cachedHF)
          else (none, some cachedHF)
        | none => (none, none)
      | none => (none, none)
    else (none, none)

/-- Model of `ElevationLayer::createHeightField(key, progress)` (lines
415-620). `createImplementation` (line 231) forwards to
`createHeightFieldFromTileSource` with the same key. -/
def createHeightField (env : ElevLayerModel) (key : TKey)
    (progress : Option ProgressCallback) : CHFResult :=
  if env.statusError then ⟨none, [], [], false⟩
  else if env.enabled = false then ⟨none, [], [], false⟩
  else
    match env.memCache with
    | some (some mhf) =>
      -- Memory-cache hit (lines 445-457): no stamping, no mem write.
      ⟨some (postProcessHF env mhf), [], [], false⟩
    | memState =>
      -- Can we continue? (lines 464-477)
      let canContinue :=
        (env.layer.tileSource).isSome || !env.tileSourceExpected ||
          (env.policy.cacheOnly && (env.cacheBin).isSome)
      if canContinue = false then ⟨none, [], [], true⟩
      else if env.policy.cacheOnly = false ∧ env.hasProfile = false then
        ⟨none, [], [], true⟩
      else
        let lookup := persistentCacheLookup env
        let cachedHF := lookup.2
        match lookup.1 with
        | some hf =>
          -- Unexpired persistent-cache hit: skip the fetch block entirely.
          let memWrites := if memState.isSome then [postProcessHF env hf] else []
          ⟨some (postProcessHF env hf), [], memWrites, false⟩
        | none =>
          -- Cache-only mode with no cache entry fails silently (510-514).
          if env.policy.cacheOnly then ⟨none, [], [], false⟩
          else if env.keyInLegalRange key = false then ⟨none, [], [], false⟩
          else
            let sourceOK :=
              if env.tileSourceExpected then
                match env.layer.tileSource with
                | some s => s.isOK
                | none => false
              else true
            if sourceOK = false then ⟨none, [], [], false⟩
            else
              let fresh0 := (createHeightFieldFromTileSource env.layer key progress).result
              -- Validate; an illegal grid is discarded (lines 541-545).
              let fresh1 :=
                match fresh0 with
                | some g => if validateHeightField (some g) then some g else none
                | none => none
              -- Cache the fresh grid if possible (lines 548-554).
              let binWrites :=
                match fresh1 with
                | some g =>
                  if (env.cacheBin).isSome ∧ env.policy.cacheWriteable then [g] else []
                | none => []
              -- Fall back on the expired cached grid (lines 557-561).
              let hf2 :=
                match fresh1 with
                | some g => some g
                | none => cachedHF
              match hf2 with
              | none => ⟨none, binWrites, [], false⟩
              | some g =>
                let stamped := stampHF (env.extentOf key) g
                -- The mem-cached object is the same heightfield the call
                -- returns; the in-place MSL post-processing therefore also
                -- shows in the cached object.
                let memWrites :=
                  if memState.isSome then [postProcessHF env stamped] else []
                ⟨some (postProcessHF env stamped), binWrites, memWrites, false⟩

/-- Model of `GeoHeightField` as consumed by the pixel sweep of the
compositor: `sample x y` models `getElevation(keySRS, x, y, interpolation,
keySRS, elevation)` — `none` when `getElevation` returns false, otherwise
the (vertical-datum transformed, interpolated) sample. -/
structure GeoHF where
  sample : ℚ → ℚ → Option FloatVal

/-- View of one `ElevationLayer` as consumed by
`ElevationLayerVector::populateHeightFieldAndNormalMap`. `createHF` models
`layer->createHeightField(key, progress)` (the full single-layer
synthesizer, modelled in detail by `createHeightField` above; the sweep
treats it as a black box returning a `GeoHeightField` or
`GeoHeightField::INVALID`). -/
structure CompositorLayer where
  enabled : Bool
  visible : Bool
  isOffset : Bool
  tileSize : ℕ
  keyInLegalRange : TKey → Bool
  bestAvailableTileKey : TKey → TKey
  createHF : TKey → Option GeoHF

/-- Model of the `LayerData` record of lines 645-649. -/
structure LayerData where
  layer : CompositorLayer
  key : TKey
  index : ℕ

/-- External profile math used by the compositor: `extentOf` models
`key.getExtent()` as (xmin, ymin, xmax, ymax) and `mapResolution` models
`keyToUse.mapResolution(hf->getNumColumns(), layer->getTileSize())`. -/
structure CompositorEnv where
  extentOf : TKey → ℚ × ℚ × ℚ × ℚ
  mapResolution : TKey → ℕ → ℕ → TKey

/-- The per-slot flag vectors of lines 906-919 are sized by
`assign(9, false)`; the argument records `contenders.size()` (respectively
`offsets.size()`), which the source ignores when sizing the vector. -/
def heightFallbackAssign (_numContenders : ℕ) : List Bool := List.replicate 9 false

/-- Sizing of `heightFailed[n]` (line 917): `assign(9, false)`, ignoring
the number of contenders. -/
def heightFailedAssign (_numContenders : ℕ) : List Bool := List.replicate 9 false

/-- Sizing of `offsetFailed[n]` (line 918): `assign(9, false)`, ignoring
the number of offsets. -/
def offsetFailedAssign (_numOffsets : ℕ) : List Bool := List.replicate 9 false

/-- Point update of a two-index table. -/
def upd2 {α : Type} (f : ℕ → ℕ → α) (n i : ℕ) (v : α) : ℕ → ℕ → α :=
  fun n0 i0 => if n0 = n ∧ i0 = i then v else f n0 i0

/-- Mutable state of the pixel sweep of `populateHeightFieldAndNormalMap`
(lines 898-1113). The per-slot caches and flags are modelled as total
tables indexed exactly as the source indexes its arrays (slot `n`, entry
`i`); their literal `assign(9, false)` sizing — and the out-of-bounds
accesses it implies for more than nine entries — is captured separately by
`heightFallbackAssign`/`heightFailedAssign`/`offsetFailedAssign`.
`ckeys i` holds the current value of `contenders[i].key`, which the sweep
mutates through the reference chain `actualKey` → `contenderKey` →
`contenders[i].key` while walking up parent keys. `grid c r` holds the
output heightfield sample (`hf->getHeight(c, r)`), `deltaLOD` the
per-pixel resolution tracker, and `contenderVisits`/`offsetVisits` are
ghost instrumentation recording, in order, the entry indices the two
per-pixel loops touch (each recorded index is the subscript used for the
`heightFailed`/`offsetFailed` flag lookups). -/
structure SweepState where
  heightFields : ℕ → ℕ → Option GeoHF
  heightFallback : ℕ → ℕ → Bool
  heightFailed : ℕ → ℕ → Bool
  offsetFields : ℕ → ℕ → Option GeoHF
  offsetFailed : ℕ → ℕ → Bool
  ckeys : ℕ → TKey
  numHeightFieldsInCache : ℕ
  realData : Bool
  nodataCount : ℕ
  grid : ℕ → ℕ → FloatVal
  deltaLOD : ℕ → ℤ
  contenderVisits : List ℕ
  offsetVisits : List ℕ

/-- Initial sweep state: empty caches, cleared flags (`assign(9, false)`),
`realData = false`, contender keys as collected, the caller-supplied
output grid contents, and a zero-initialised `deltaLOD` array
(`new osg::ShortArray(total)`). -/
def initSweepState (hf : HeightField) (contenders : List LayerData) : SweepState where
  heightFields := fun _ _ => none
  heightFallback := fun _ _ => false
  heightFailed := fun _ _ => false
  offsetFields := fun _ _ => none
  offsetFailed := fun _ _ => false
  ckeys := fun i => ((contenders[i]?).map LayerData.key).getD TKey.invalid
  numHeightFieldsInCache := 0
  realData := false
  nodataCount := 0
  grid := fun c r => hf.heightList.getD (r * hf.numColumns + c) (FloatVal.val 0)
  deltaLOD := fun _ => 0
  contenderVisits := []
  offsetVisits := []

/-- Fuel-indexed parent-walk loop of lines 982-989:
`while (!layerHF.valid() && actualKey.valid() && layer->isKeyInLegalRange
(actualKey)) { layerHF = layer->createHeightField(actualKey, progress);
if (!layerHF.valid()) actualKey = actualKey.createParentKey(); }`.
Returns the fetched field (if any) together with the final value of
`actualKey`. With fuel `k.depth` (see `fetchLoop`) the unrolling is exact:
each parent step lowers `TKey.depth` by at least one, and a key of depth 0
is invalid, so the fuel never runs out before the loop condition fails. -/
def fetchGo (legal : TKey → Bool) (create : TKey → Option GeoHF) :
    ℕ → TKey → Option GeoHF × TKey
  | 0, k => (none, k)
  | fuel + 1, k =>
    if k.isValid && legal k then
      match create k with
      | some g => (some g, k)
      | none => fetchGo legal create fuel k.createParentKey
    else (none, k)

/-- The parent-walk loop, with the fuel fixed to the key's depth. -/
def fetchLoop (legal : TKey → Bool) (create : TKey → Option GeoHF) (k : TKey) :
    Option GeoHF × TKey :=
  fetchGo legal create k.depth k

/-- Cache eviction at the bottom of a contender iteration (lines
1039-1051): when at least `maxHeightFields = 50` grids are cached, clear
every contender cache slot and every fallback flag and reset the counter. -/
def contenderEvict (st3 : SweepState) : SweepState :=
  if 50 ≤ st3.numHeightFieldsInCache then
    { st3 with
        heightFields := fun _ _ => none
        heightFallback := fun _ _ => false
        numHeightFieldsInCache := 0 }
  else st3

/-- Tail of a contender iteration once a valid grid is at hand (lines
1004-1051): flag real data when the grid is not marked fallback, sample
it, on a valid non-`NO_DATA` sample write the height, record `deltaLOD =
key.getLOD() - actualKey.getLOD()` and resolve the pixel, and finally run
the eviction check. -/
def contenderSample (key : TKey) (numColumns c r : ℕ) (x y : ℚ)
    (ld : LayerData) (i : ℕ) (st1 : SweepState) (resolvedIndex : ℤ)
    (g : GeoHF) : SweepState × ℤ :=
  let isFallback := st1.heightFallback 4 i
  -- We only have real data if this is not a fallback heightfield (1008-1012).
  let st2 := if isFallback = false then { st1 with realData := true } else st1
  match g.sample x y with
  | some elevation =>
    if elevation ≠ NO_DATA_VALUE then
      (contenderEvict
        { st2 with
            grid := upd2 st2.grid c r elevation
            deltaLOD := Function.update st2.deltaLOD
              (deltaLODWriteIndex numColumns c r)
              ((key.lod : ℤ) - ((st2.ckeys i).lod : ℤ)) }, (ld.index : ℤ))
    else (contenderEvict { st2 with nodataCount := st2.nodataCount + 1 }, resolvedIndex)
  | none => (contenderEvict st2, resolvedIndex)

/-- One iteration of the contender loop of lines 950-1052 for entry `i` at
output pixel (c, r) mapped to world (x, y). `n = 4` is the center slot
(line 959; the bordered-neighbor branch is compiled out). In the source
`TileKey& actualKey = contenderKey` aliases `contenders[i].key`, so the
parent walk mutates the stored key and the fallback test
`actualKey != contenderKey` compares the aliased key against itself. -/
def contenderStep (key : TKey) (numColumns c r : ℕ) (x y : ℚ) (ld : LayerData)
    (i : ℕ) (st : SweepState) (resolvedIndex : ℤ) : SweepState × ℤ :=
  -- ghost: the flag subscripts consulted for this iteration
  let st0 := { st with contenderVisits := st.contenderVisits ++ [i] }
  if st0.heightFailed 4 i then (st0, resolvedIndex)
  else
    match st0.heightFields 4 i with
    | some g => contenderSample key numColumns c r x y ld i st0 resolvedIndex g
    | none =>
      let fr := fetchLoop ld.layer.keyInLegalRange ld.layer.createHF (st0.ckeys i)
      match fr.1 with
      | some g =>
        contenderSample key numColumns c r x y ld i
          { st0 with
              ckeys := Function.update st0.ckeys i fr.2
              -- `actualKey != contenderKey` is a self-comparison: false.
              heightFallback := upd2 st0.heightFallback 4 i (decide (fr.2 ≠ fr.2))
              heightFields := upd2 st0.heightFields 4 i (some g)
              numHeightFieldsInCache := st0.numHeightFieldsInCache + 1 }
          resolvedIndex g
      | none =>
        -- `continue` (lines 998-1001): skips the eviction check.
        ({ st0 with
            ckeys := Function.update st0.ckeys i fr.2
            heightFailed := upd2 st0.heightFailed 4 i true }, resolvedIndex)

/-- The contender loop `for (int i = 0; i < contenders.size() &&
resolvedIndex < 0; ++i)` (line 950), unrolled with fuel
`contenders.length` (the loop runs at most that many iterations). -/
def contenderLoop (key : TKey) (numColumns c r : ℕ) (x y : ℚ)
    (contenders : List LayerData) :
    ℕ → ℕ → ℤ → SweepState → SweepState × ℤ
  | 0, _, resolvedIndex, st => (st, resolvedIndex)
  | fuel + 1, i, resolvedIndex, st =>
    if i < contenders.length ∧ resolvedIndex < 0 then
      match contenders[i]? with
      | some ld =>
        let p := contenderStep key numColumns c r x y ld i st resolvedIndex
        contenderLoop key numColumns c r x y contenders fuel (i + 1) p.2 p.1
      | none => (st, resolvedIndex)
    else (st, resolvedIndex)

/-- Tail of an offset iteration once a valid grid is at hand (lines
1094-1110): getting a grid at all flags real data; a valid non-`NO_DATA`
sample is added into the output height and `deltaLOD` is overwritten with
`key.getLOD() - contenderKey.getLOD()` for the offset's stored key. -/
def offsetApply (key : TKey) (numColumns c r : ℕ) (x y : ℚ) (ld : LayerData)
    (st1 : SweepState) (g : GeoHF) : SweepState :=
  -- If we actually got a layer then we have real data (1094-1095).
  let st2 := { st1 with realData := true }
  match g.sample x y with
  | some elevation =>
    if elevation ≠ NO_DATA_VALUE then
      { st2 with
          grid := upd2 st2.grid c r (fadd (st2.grid c r) elevation)
          deltaLOD := Function.update st2.deltaLOD
            (deltaLODWriteIndex numColumns c r)
            ((key.lod : ℤ) - (ld.key.lod : ℤ)) }
    else st2
  | none => st2

/-- One iteration of the offset loop of lines 1054-1111 for entry `i`.
Offsets are sampled at their stored key (no parent walk); `n = 4` is again
the center slot. -/
def offsetStep (key : TKey) (numColumns c r : ℕ) (x y : ℚ) (ld : LayerData)
    (i : ℕ) (resolvedIndex : ℤ) (st : SweepState) : SweepState :=
  -- ghost: the loop iteration reaches entry i
  let st0 := { st with offsetVisits := st.offsetVisits ++ [i] }
  -- Only apply an offset sitting on top of the resolved layer (1058-1059).
  if 0 ≤ resolvedIndex ∧ (ld.index : ℤ) < resolvedIndex then st0
  else if st0.offsetFailed 4 i then st0
  else
    match st0.offsetFields 4 i with
    | some g => offsetApply key numColumns c r x y ld st0 g
    | none =>
      match ld.layer.createHF ld.key with
      | none => { st0 with offsetFailed := upd2 st0.offsetFailed 4 i true }
      | some g =>
        offsetApply key numColumns c r x y ld
          { st0 with offsetFields := upd2 st0.offsetFields 4 i (some g) } g

/-- The offset loop `for (int i = offsets.size()-1; i >= 0; --i)` (line
1054), by structural recursion on the descending loop counter. -/
def offsetLoopFrom (key : TKey) (numColumns c r : ℕ) (x y : ℚ)
    (offsets : List LayerData) (resolvedIndex : ℤ) :
    ℕ → SweepState → SweepState
  | 0, st =>
    match offsets[0]? with
    | some ld => offsetStep key numColumns c r x y ld 0 resolvedIndex st
    | none => st
  | i + 1, st =>
    let st1 :=
      match offsets[i + 1]? with
      | some ld => offsetStep key numColumns c r x y ld (i + 1) resolvedIndex st
      | none => st
    offsetLoopFrom key numColumns c r x y offsets resolvedIndex i st1

/-- The offset loop for one pixel: starts at `offsets.size() - 1` and does
not run at all when there are no offsets. -/
def offsetLoopPixel (key : TKey) (numColumns c r : ℕ) (x y : ℚ)
    (offsets : List LayerData) (resolvedIndex : ℤ) (st : SweepState) : SweepState :=
  match offsets.length with
  | 0 => st
  | n + 1 => offsetLoopFrom key numColumns c r x y offsets resolvedIndex n st

/-- Processing of one output pixel (lines 941-1112): map (c, r) to world
(x, y), run the contender loop with `resolvedIndex = -1`, then the offset
loop. -/
def pixelStep (key : TKey) (contenders offsets : List LayerData)
    (numColumns : ℕ) (xmin ymin dx dy : ℚ) (st : SweepState) (cr : ℕ × ℕ) :
    SweepState :=
  let x := xmin + dx * (cr.1 : ℚ)
  let y := ymin + dy * (cr.2 : ℚ)
  let p := contenderLoop key numColumns cr.1 cr.2 x y contenders
    contenders.length 0 (-1) st
  offsetLoopPixel key numColumns cr.1 cr.2 x y offsets p.2 p.1

/-- Pixel order of the sweep: column-major (`for c { for r { ... } }`,
lines 937-940). -/
def pixelList (numColumns numRows : ℕ) : List (ℕ × ℕ) :=
  (List.range numColumns).flatMap (fun c => (List.range numRows).map (fun r => (c, r)))

/-- The full pixel sweep over the target grid. -/
def runSweep (env : CompositorEnv) (contenders offsets : List LayerData)
    (hf : HeightField) (key : TKey) : SweepState :=
  let numColumns := hf.numColumns
  let numRows := hf.numRows
  let ext := env.extentOf key
  let dx := (ext.2.2.1 - ext.1) / ((numColumns - 1 : ℕ) : ℚ)
  let dy := (ext.2.2.2 - ext.2.1) / ((numRows - 1 : ℕ) : ℚ)
  (pixelList numColumns numRows).foldl
    (pixelStep key contenders offsets numColumns ext.1 ext.2.1 dx dy)
    (initSweepState hf contenders)

/-- One step of the layer-collection walk of lines 802-862 for the layer at
stack position `i`: skip disabled/invisible layers and keys out of legal
range, resolve the best available mapped key, count fallback-classified
entries, and push the entry onto `offsets` or `contenders`. -/
def collectLayer (env : CompositorEnv) (key keyToUse : TKey) (numColumns : ℕ)
    (layer : CompositorLayer) (i : ℕ)
    (acc : List LayerData × List LayerData × ℕ) :
    List LayerData × List LayerData × ℕ :=
  if layer.enabled && layer.visible then
    let mappedKey := env.mapResolution keyToUse numColumns layer.tileSize
    if layer.keyInLegalRange key = false then acc
    else
      let bestKey := layer.bestAvailableTileKey mappedKey
      if bestKey.isValid then
        let numFallback := if mappedKey ≠ bestKey then acc.2.2 + 1 else acc.2.2
        if layer.isOffset then
          (acc.1, acc.2.1 ++ [⟨layer, bestKey, i⟩], numFallback)
        else
          (acc.1 ++ [⟨layer, bestKey, i⟩], acc.2.1, numFallback)
      else acc
  else acc

/-- The collection walk `for (int i = size()-1; i >= 0; --i)` (line 802),
by structural recursion on the descending stack position. -/
def collectFrom (env : CompositorEnv) (layers : List CompositorLayer)
    (key keyToUse : TKey) (numColumns : ℕ) :
    ℕ → (List LayerData × List LayerData × ℕ) →
    List LayerData × List LayerData × ℕ
  | 0, acc =>
    match layers[0]? with
    | some layer => collectLayer env key keyToUse numColumns layer 0 acc
    | none => acc
  | i + 1, acc =>
    let acc1 :=
      match layers[i + 1]? with
      | some layer => collectLayer env key keyToUse numColumns layer (i + 1) acc
      | none => acc
    collectFrom env layers key keyToUse numColumns i acc1

/-- Collect the valid contender and offset entries for this tile, walking
the stack from highest priority (last) to lowest, together with
`numFallbackLayers`. -/
def collectLayers (env : CompositorEnv) (layers : List CompositorLayer)
    (key keyToUse : TKey) (numColumns : ℕ) :
    List LayerData × List LayerData × ℕ :=
  match layers.length with
  | 0 => ([], [], 0)
  | n + 1 => collectFrom env layers key keyToUse numColumns n ([], [], 0)

/-- The query key of lines 788-792: with an HAE profile supplied, the same
(lod, x, y) re-based onto that profile. -/
def keyToUseOf (key : TKey) (haeProfile : Option ℕ) : TKey :=
  match haeProfile with
  | some p => key.withProfile p
  | none => key

/-- Model of `ElevationLayerVector::populateHeightFieldAndNormalMap`
(lines 770-1122). Returns the `realData` flag the source returns, paired
with the final sweep state (`none` when the call returned before the
pixel sweep: null heightfield, no usable entries, or all entries
fallback). The normal-map generation of line 1117 consumes the sweep's
`deltaLOD` and heightfield but does not influence the returned flag; its
per-pixel step computation is modelled by `createNormalMapStep`. -/
def populateHeightFieldAndNormalMap (env : CompositorEnv)
    (layers : List CompositorLayer) (hfIn : Option HeightField) (key : TKey)
    (haeProfile : Option ℕ) : Bool × Option SweepState :=
  match hfIn with
  | none => (false, none)
  | some hf =>
    let keyToUse := keyToUseOf key haeProfile
    let col := collectLayers env layers key keyToUse hf.numColumns
    let contenders := col.1
    let offsets := col.2.1
    let numFallbackLayers := col.2.2
    -- nothing? bail out (lines 865-868)
    if contenders.isEmpty && offsets.isEmpty then (false, none)
    -- if everything is fallback data, bail out (lines 871-874)
    else if contenders.length + offsets.length = numFallbackLayers then (false, none)
    else
      let st := runSweep env contenders offsets hf key
      (st.realData, some st)

/-- Observation: the ghost list of contender-flag subscripts consulted
during a populate call (empty when the sweep did not run). -/
def populateContenderVisits (env : CompositorEnv) (layers : List CompositorLayer)
    (hfIn : Option HeightField) (key : TKey) (haeProfile : Option ℕ) : List ℕ :=
  match (populateHeightFieldAndNormalMap env layers hfIn key haeProfile).2 with
  | some st => st.contenderVisits
  | none => []

/-- Observation: the ghost list of offset-loop iteration indices of a
populate call, in order (empty when the sweep did not run). -/
def populateOffsetVisits (env : CompositorEnv) (layers : List CompositorLayer)
    (hfIn : Option HeightField) (key : TKey) (haeProfile : Option ℕ) : List ℕ :=
  match (populateHeightFieldAndNormalMap env layers hfIn key haeProfile).2 with
  | some st => st.offsetVisits
  | none => []

/-- Observation: an output-grid sample after a populate call (the input
sample when the sweep did not run). -/
def populateGridAt (env : CompositorEnv) (layers : List CompositorLayer)
    (hfIn : Option HeightField) (key : TKey) (haeProfile : Option ℕ)
    (c r : ℕ) : FloatVal :=
  match (populateHeightFieldAndNormalMap env layers hfIn key haeProfile).2 with
  | some st => st.grid c r
  | none =>
    match hfIn with
    | some hf => hf.heightList.getD (r * hf.numColumns + c) (FloatVal.val 0)
    | none => FloatVal.val 0

/-- Observation: the number of collected contender entries of a populate
call. -/
def populateContendersCount (env : CompositorEnv) (layers : List CompositorLayer)
    (hfIn : Option HeightField) (key : TKey) (haeProfile : Option ℕ) : ℕ :=
  match hfIn with
  | none => 0
  | some hf => (collectLayers env layers key (keyToUseOf key haeProfile) hf.numColumns).1.length

/-- Fallback classification of a collected entry, as the collection walk
counts it (lines 826-834): the best available key stored in the entry
differs from the resolution-mapped key of its layer. -/
def fallbackClassified (env : CompositorEnv) (keyToUse : TKey) (numColumns : ℕ)
    (ld : LayerData) : Bool :=
  decide (env.mapResolution keyToUse numColumns ld.layer.tileSize ≠ ld.key)

/-!
Theorems. Each claim of the specification is settled by one theorem below
(with a closed witness where the theorem carries hypotheses, and a closed
counterexample where the claim as stated fails on the code).
-/

/-- C4: after the `NormalizeNoDataValues` operation runs over a height
grid, every sample is either exactly the global `NO_DATA_VALUE` sentinel,
or a non-NaN value lying within [minValidValue, maxValidValue] that is not
`osg::equivalent` to the layer's configured noDataValue. -/
theorem normalizeNoData_output_valid_or_sentinel
    (op : NormalizeNoDataValues) (mn mx : ℚ) (hf hf2 : HeightField) (v : FloatVal)
    (hmn : op.minValidValue = FloatVal.val mn)
    (hmx : op.maxValidValue = FloatVal.val mx)
    (hrun : op.run (some hf) = some hf2)
    (hv : v ∈ hf2.heightList) :
    v = NO_DATA_VALUE ∨
      ∃ q : ℚ, v = FloatVal.val q ∧ mn ≤ q ∧ q ≤ mx ∧
        fequivalent v op.noDataValue = false := by
  have hlist : hf2.heightList = hf.heightList.map (normalizeValue op) := by
    simp only [NormalizeNoDataValues.run, Option.some.injEq] at hrun
    rw [← hrun]
  rw [hlist] at hv
  rcases List.mem_map.mp hv with ⟨u, _, hvu⟩
  by_cases hcond : (isNaNF u || fequivalent u op.noDataValue ||
      flt u op.minValidValue || flt op.maxValidValue u) = true
  · left
    rw [← hvu]
    simp [normalizeValue, hcond]
  · right
    have hval : normalizeValue op u = u := by
      simp only [normalizeValue]
      rw [if_neg hcond]
    simp only [Bool.or_eq_true, not_or, Bool.not_eq_true] at hcond
    obtain ⟨⟨⟨hnan, hequiv⟩, hminv⟩, hmaxv⟩ := hcond
    cases u with
    | nan => simp [isNaNF] at hnan
    | val q =>
      refine ⟨q, by rw [← hvu, hval], ?_, ?_, by rw [← hvu, hval]; exact hequiv⟩
      · rw [hmn] at hminv
        simp only [flt, decide_eq_true_eq] at hminv
        exact le_of_not_lt (by simpa using hminv)
      · rw [hmx] at hmaxv
        simp only [flt, decide_eq_true_eq] at hmaxv
        exact le_of_not_lt (by simpa using hmaxv)

/-- Witness for C4: a concrete run of the normalizer on a 2×2 grid. -/
theorem normalizeNoData_output_valid_or_sentinel_witness :
    ((⟨FloatVal.val 0, FloatVal.val (-100), FloatVal.val 100⟩ :
        NormalizeNoDataValues).run
      (some ⟨2, 2, [FloatVal.val 5, FloatVal.nan, FloatVal.val 200, FloatVal.val 0],
        0, 0, 0, 0, 0⟩) =
      some ⟨2, 2, [FloatVal.val 5, NO_DATA_VALUE, NO_DATA_VALUE, NO_DATA_VALUE],
        0, 0, 0, 0, 0⟩ ∧
      FloatVal.val 5 ∈ [FloatVal.val 5, NO_DATA_VALUE, NO_DATA_VALUE, NO_DATA_VALUE]) ∧
    (FloatVal.val 5 = NO_DATA_VALUE ∨
      ∃ q : ℚ, FloatVal.val 5 = FloatVal.val q ∧ (-100 : ℚ) ≤ q ∧ q ≤ 100 ∧
        fequivalent (FloatVal.val 5) (FloatVal.val 0) = false) := by
  have hrun :
      (⟨FloatVal.val 0, FloatVal.val (-100), FloatVal.val 100⟩ :
          NormalizeNoDataValues).run
        (some ⟨2, 2,
          [FloatVal.val 5, FloatVal.nan, FloatVal.val 200, FloatVal.val 0],
          0, 0, 0, 0, 0⟩) =
      some ⟨2, 2,
        [FloatVal.val 5, NO_DATA_VALUE, NO_DATA_VALUE, NO_DATA_VALUE],
        0, 0, 0, 0, 0⟩ := by
    norm_num [NormalizeNoDataValues.run, normalizeValue, isNaNF, fequivalent, flt]
  refine ⟨⟨hrun, by decide⟩, ?_⟩
  exact normalizeNoData_output_valid_or_sentinel
    ⟨FloatVal.val 0, FloatVal.val (-100), FloatVal.val 100⟩ (-100) 100
    ⟨2, 2, [FloatVal.val 5, FloatVal.nan, FloatVal.val 200, FloatVal.val 0],
      0, 0, 0, 0, 0⟩
    ⟨2, 2, [FloatVal.val 5, NO_DATA_VALUE, NO_DATA_VALUE, NO_DATA_VALUE],
      0, 0, 0, 0, 0⟩
    (FloatVal.val 5) rfl rfl hrun (by decide)

/-- C5: `validateHeightField` accepts a grid iff both dimensions lie in
[2, 1024] and the backing storage length equals columns×rows; in
particular 2×2 and 1024×1024 grids (with matching storage) pass while any
grid with 1 or 1025 rows or columns fails. -/
theorem validateHeightField_iff :
    (∀ hf : HeightField,
      validateHeightField (some hf) = true ↔
        (2 ≤ hf.numRows ∧ hf.numRows ≤ 1024 ∧ 2 ≤ hf.numColumns ∧
          hf.numColumns ≤ 1024 ∧
          hf.heightList.length = hf.numColumns * hf.numRows)) ∧
    validateHeightField
      (some ⟨2, 2, List.replicate 4 (FloatVal.val 0), 0, 0, 0, 0, 0⟩) = true ∧
    validateHeightField
      (some ⟨1024, 1024, List.replicate (1024 * 1024) (FloatVal.val 0),
        0, 0, 0, 0, 0⟩) = true ∧
    (∀ hf : HeightField, hf.numRows = 1 → validateHeightField (some hf) = false) ∧
    (∀ hf : HeightField, hf.numRows = 1025 → validateHeightField (some hf) = false) ∧
    (∀ hf : HeightField, hf.numColumns = 1 → validateHeightField (some hf) = false) ∧
    (∀ hf : HeightField, hf.numColumns = 1025 → validateHeightField (some hf) = false) := by
  have hiff : ∀ hf : HeightField,
      validateHeightField (some hf) = true ↔
        (2 ≤ hf.numRows ∧ hf.numRows ≤ 1024 ∧ 2 ≤ hf.numColumns ∧
          hf.numColumns ≤ 1024 ∧
          hf.heightList.length = hf.numColumns * hf.numRows) := by
    intro hf
    simp only [validateHeightField]
    split_ifs with h1 h2 h3
    · simp only [Bool.or_eq_true, decide_eq_true_eq] at h1
      constructor
      · intro h; exact absurd h (by simp)
      · intro h; omega
    · simp only [Bool.or_eq_true, decide_eq_true_eq] at h2
      constructor
      · intro h; exact absurd h (by simp)
      · intro h; omega
    · constructor
      · intro h; exact absurd h (by simp)
      · intro h; exact absurd h.2.2.2.2 h3
    · simp only [Bool.or_eq_true, decide_eq_true_eq, not_or, not_lt] at h1 h2
      simp only [not_not] at h3
      exact ⟨fun _ => ⟨h1.1, h1.2, h2.1, h2.2, h3⟩, fun _ => rfl⟩
  refine ⟨hiff, ?_, ?_, ?_, ?_, ?_, ?_⟩
  · exact (hiff _).mpr
      ⟨by norm_num, by norm_num, by norm_num, by norm_num,
        by simp only [List.length_replicate]⟩
  · exact (hiff _).mpr
      ⟨by norm_num, by norm_num, by norm_num, by norm_num,
        by simp only [List.length_replicate]⟩
  · intro hf h; simp [validateHeightField, h]
  · intro hf h; simp [validateHeightField, h]
  · intro hf h; simp [validateHeightField, h]
  · intro hf h; simp [validateHeightField, h]

/-- Witness for C5: the forward direction evaluated at a concrete 3×2 grid. -/
theorem validateHeightField_iff_witness :
    validateHeightField
      (some ⟨3, 2, List.replicate 6 (FloatVal.val 1), 0, 0, 0, 0, 0⟩) = true ∧
    (2 : ℕ) ≤ 2 ∧ (2 : ℕ) ≤ 1024 ∧ (2 : ℕ) ≤ 3 ∧ (3 : ℕ) ≤ 1024 ∧
      (List.replicate 6 (FloatVal.val 1)).length = 3 * 2 :=
  ⟨by decide,
    validateHeightField_iff.1 ⟨3, 2, List.replicate 6 (FloatVal.val 1), 0, 0, 0, 0, 0⟩
      |>.mp (by decide)⟩

/-- C2 (code bug): the normal-map builder computes the interpolation step
from `deltaLOD[t*numRows + s]` (line 710 uses row stride `h =
getNumRows()`), not from `deltaLOD[t*numColumns + s]` — yet the
compositor's pixel sweep stored the pixel's entry at `r*numColumns + c`.
On a 3-column 2-row grid with the sweep-written array [0, 0, 3, 1, 0, 0],
the builder reads index 2 for pixel (s,t) = (0,1) and derives step 8,
while the entry the sweep stored for that pixel (index 3) gives step 2;
with more rows than columns the builder's index even runs past the end of
the array. -/
theorem createNormalMap_deltaLOD_index_mismatch :
    createNormalMapStep ⟨3, 2, [], 0, 0, 0, 0, 0⟩ [0, 0, 3, 1, 0, 0] 0 1 = 8 ∧
    1 <<< ([0, 0, 3, 1, 0, 0].getD (deltaLODWriteIndex 3 0 1) 0) = 2 ∧
    (8 : ℕ) ≠ 2 :=
  ⟨by decide, by decide, by decide⟩

/-- C7: a key present in the layer's blacklist makes
`createHeightFieldFromTileSource` return null without invoking the tile
source driver's `createHeightField` for that key. -/
theorem blacklisted_key_skips_driver (L : LayerModel) (key : TKey)
    (progress : Option ProgressCallback) (source : TileSourceModel)
    (hsrc : L.tileSource = some source)
    (hbl : key ∈ source.blacklist) :
    (createHeightFieldFromTileSource L key progress).result = none ∧
    (createHeightFieldFromTileSource L key progress).driverCalled = false := by
  simp [createHeightFieldFromTileSource, hsrc, hbl]

/-- Witness for C7 at a concrete layer and blacklisted key. -/
theorem blacklisted_key_skips_driver_witness :
    ((⟨some ⟨[TKey.key 1 0 0 0], fun _ => none, true⟩, fun _ => true,
        fun _ => true, fun _ => true, id, fun _ => none⟩ :
        LayerModel).tileSource =
      some ⟨[TKey.key 1 0 0 0], fun _ => none, true⟩ ∧
      TKey.key 1 0 0 0 ∈ [TKey.key 1 0 0 0]) ∧
    ((createHeightFieldFromTileSource
        ⟨some ⟨[TKey.key 1 0 0 0], fun _ => none, true⟩, fun _ => true,
          fun _ => true, fun _ => true, id, fun _ => none⟩
        (TKey.key 1 0 0 0) none).result = none ∧
      (createHeightFieldFromTileSource
        ⟨some ⟨[TKey.key 1 0 0 0], fun _ => none, true⟩, fun _ => true,
          fun _ => true, fun _ => true, id, fun _ => none⟩
        (TKey.key 1 0 0 0) none).driverCalled = false) :=
  ⟨⟨rfl, by decide⟩,
    blacklisted_key_skips_driver _ _ none _ rfl (by decide)⟩

/-- C6: when the driver fetch for a horizontally-equivalent key produces no
grid, the key is added to the blacklist exactly when no progress callback
was supplied or the callback reports neither canceled nor needs-retry; if
the callback reports canceled or needs-retry, the key is not blacklisted. -/
theorem blacklist_add_iff_not_canceled (L : LayerModel) (key : TKey)
    (progress : Option ProgressCallback) (source : TileSourceModel)
    (hsrc : L.tileSource = some source)
    (hbl : key ∉ source.blacklist)
    (hhoriz : L.horizEquivToLayer key = true)
    (hmay : L.mayHaveData key = true)
    (hfail : source.createHF key = none) :
    (key ∈ (createHeightFieldFromTileSource L key progress).blacklistAfter ↔
      (progress = none ∨
        ∃ p, progress = some p ∧ p.isCanceled = false ∧ p.needsRetry = false)) ∧
    (∀ p, progress = some p → (p.isCanceled = true ∨ p.needsRetry = true) →
      key ∉ (createHeightFieldFromTileSource L key progress).blacklistAfter) := by
  cases progress with
  | none =>
    have hres : (createHeightFieldFromTileSource L key none).blacklistAfter =
        key :: source.blacklist := by
      simp [createHeightFieldFromTileSource, hsrc, hbl, hhoriz, hmay, hfail]
    rw [hres]
    simp
  | some p =>
    by_cases hc : p.isCanceled = false ∧ p.needsRetry = false
    · have hres : (createHeightFieldFromTileSource L key (some p)).blacklistAfter =
          key :: source.blacklist := by
        simp [createHeightFieldFromTileSource, hsrc, hbl, hhoriz, hmay, hfail,
          hc.1, hc.2]
      rw [hres]
      constructor
      · exact ⟨fun _ => Or.inr ⟨p, rfl, hc.1, hc.2⟩, fun _ => List.mem_cons_self key _⟩
      · intro p2 hp2 hflag
        cases hp2
        rcases hflag with h | h
        · rw [hc.1] at h; cases h
        · rw [hc.2] at h; cases h
    · have hres : (createHeightFieldFromTileSource L key (some p)).blacklistAfter =
          source.blacklist := by
        simp [createHeightFieldFromTileSource, hsrc, hbl, hhoriz, hmay, hfail, hc]
      rw [hres]
      constructor
      · constructor
        · intro hmem; exact absurd hmem hbl
        · rintro (h | ⟨p2, hp2, h1, h2⟩)
          · cases h
          · cases hp2
            exact absurd ⟨h1, h2⟩ hc
      · intro p2 hp2 hflag
        exact hbl

/-- Witness for C6: a concrete failed fetch with no progress callback. -/
theorem blacklist_add_iff_not_canceled_witness :
    ((⟨some ⟨[], fun _ => none, true⟩, fun _ => true, fun _ => true,
        fun _ => true, id, fun _ => none⟩ : LayerModel).tileSource =
        some ⟨[], fun _ => none, true⟩ ∧
      TKey.key 2 1 1 0 ∉ ([] : List TKey)) ∧
    ((TKey.key 2 1 1 0 ∈ (createHeightFieldFromTileSource
        ⟨some ⟨[], fun _ => none, true⟩, fun _ => true, fun _ => true,
          fun _ => true, id, fun _ => none⟩ (TKey.key 2 1 1 0) none).blacklistAfter ↔
      ((none : Option ProgressCallback) = none ∨
        ∃ p, (none : Option ProgressCallback) = some p ∧
          p.isCanceled = false ∧ p.needsRetry = false)) ∧
    (∀ p, (none : Option ProgressCallback) = some p →
      (p.isCanceled = true ∨ p.needsRetry = true) →
      TKey.key 2 1 1 0 ∉ (createHeightFieldFromTileSource
        ⟨some ⟨[], fun _ => none, true⟩, fun _ => true, fun _ => true,
          fun _ => true, id, fun _ => none⟩ (TKey.key 2 1 1 0) none).blacklistAfter)) :=
  ⟨⟨rfl, by decide⟩,
    blacklist_add_iff_not_canceled _ _ none _ rfl (by decide) rfl rfl rfl⟩

/-- C9: if the fresh fetch yields no grid, or yields a grid that fails
validation (which is discarded and not written to the persistent cache),
but an expired persistently-cached grid was previously read and validated,
`createHeightField` returns a height field built from that expired cached
grid (stamped and post-processed) instead of Invalid, and writes nothing
to the persistent cache. -/
theorem expired_cache_fallback_on_fetch_failure (env : ElevLayerModel)
    (key : TKey) (progress : Option ProgressCallback)
    (bin : CacheBinModel) (chf : HeightField) (t : ℤ) (src : TileSourceModel)
    (herr : env.statusError = false)
    (hen : env.enabled = true)
    (hmem : env.memCache = none ∨ env.memCache = some none)
    (hsrc : env.layer.tileSource = some src)
    (hok : src.isOK = true)
    (hexp : env.tileSourceExpected = true)
    (hprof : env.hasProfile = true)
    (hbin : env.cacheBin = some bin)
    (hread : bin.readResult = some (some chf, t))
    (hreadable : env.policy.cacheReadable = true)
    (hvalid : validateHeightField (some chf) = true)
    (hexpired : env.policy.isExpired t = true)
    (hconly : env.policy.cacheOnly = false)
    (hlegal : env.keyInLegalRange key = true)
    (hfresh : (createHeightFieldFromTileSource env.layer key progress).result = none ∨
      ∃ g, (createHeightFieldFromTileSource env.layer key progress).result = some g ∧
        validateHeightField (some g) = false) :
    (createHeightField env key progress).result =
      some (postProcessHF env (stampHF (env.extentOf key) chf)) ∧
    (createHeightField env key progress).binWrites = [] := by
  have hlook : persistentCacheLookup env = (none, some chf) := by
    simp [persistentCacheLookup, hbin, hreadable, hread, hvalid, hexpired]
  have hfresh1 :
      (match (createHeightFieldFromTileSource env.layer key progress).result with
        | some g => if validateHeightField (some g) then some g else none
        | none => none) = (none : Option HeightField) := by
    rcases hfresh with h | ⟨g, hg, hbad⟩
    · rw [h]
    · rw [hg]
      show (if validateHeightField (some g) = true then some g else none) = none
      rw [hbad]
      simp
  rcases hmem with h | h
  · simp [createHeightField, herr, hen, h, hsrc, hprof, hlook, hconly, hlegal,
      hexp, hok, hfresh1]
  · simp [createHeightField, herr, hen, h, hsrc, hprof, hlook, hconly, hlegal,
      hexp, hok, hfresh1]

/-- Witness for C9: a concrete layer whose driver fails while an expired
validated grid sits in the persistent cache. -/
theorem expired_cache_fallback_on_fetch_failure_witness :
    (validateHeightField
        (some ⟨2, 2, List.replicate 4 (FloatVal.val 7), 0, 0, 0, 0, 0⟩) = true ∧
      (createHeightFieldFromTileSource
        ⟨some ⟨[], fun _ => none, true⟩, fun _ => true, fun _ => true,
          fun _ => true, id, fun _ => none⟩ (TKey.key 3 1 2 0) none).result = none) ∧
    ((createHeightField
        ⟨false, true, none, some ⟨some (some ⟨2, 2, List.replicate 4 (FloatVal.val 7),
            0, 0, 0, 0, 0⟩, 0)⟩,
          ⟨false, true, true, fun _ => true⟩, true, fun _ => true,
          ⟨some ⟨[], fun _ => none, true⟩, fun _ => true, fun _ => true,
            fun _ => true, id, fun _ => none⟩, true, false, id,
          fun _ => ((0 : ℚ), (0 : ℚ), (1 : ℚ), (1 : ℚ))⟩
        (TKey.key 3 1 2 0) none).result =
      some (postProcessHF
        ⟨false, true, none, some ⟨some (some ⟨2, 2, List.replicate 4 (FloatVal.val 7),
            0, 0, 0, 0, 0⟩, 0)⟩,
          ⟨false, true, true, fun _ => true⟩, true, fun _ => true,
          ⟨some ⟨[], fun _ => none, true⟩, fun _ => true, fun _ => true,
            fun _ => true, id, fun _ => none⟩, true, false, id,
          fun _ => ((0 : ℚ), (0 : ℚ), (1 : ℚ), (1 : ℚ))⟩
        (stampHF ((0 : ℚ), (0 : ℚ), (1 : ℚ), (1 : ℚ))
          ⟨2, 2, List.replicate 4 (FloatVal.val 7), 0, 0, 0, 0, 0⟩)) ∧
      (createHeightField
        ⟨false, true, none, some ⟨some (some ⟨2, 2, List.replicate 4 (FloatVal.val 7),
            0, 0, 0, 0, 0⟩, 0)⟩,
          ⟨false, true, true, fun _ => true⟩, true, fun _ => true,
          ⟨some ⟨[], fun _ => none, true⟩, fun _ => true, fun _ => true,
            fun _ => true, id, fun _ => none⟩, true, false, id,
          fun _ => ((0 : ℚ), (0 : ℚ), (1 : ℚ), (1 : ℚ))⟩
        (TKey.key 3 1 2 0) none).binWrites = []) :=
  ⟨⟨by decide, rfl⟩,
    expired_cache_fallback_on_fetch_failure _ _ none _ _ 0 _ rfl rfl (Or.inl rfl)
      rfl rfl rfl rfl rfl rfl rfl (by decide) rfl rfl rfl (Or.inl rfl)⟩

/-- The eviction step leaves both ghost lists alone. -/
theorem contenderEvict_ghost (st3 : SweepState) :
    (contenderEvict st3).contenderVisits = st3.contenderVisits ∧
    (contenderEvict st3).offsetVisits = st3.offsetVisits := by
  simp only [contenderEvict]
  split
  · exact ⟨rfl, rfl⟩
  · exact ⟨rfl, rfl⟩

/-- The contender sampling tail leaves both ghost lists alone. -/
theorem contenderSample_ghost (key : TKey) (numColumns c r : ℕ) (x y : ℚ)
    (ld : LayerData) (i : ℕ) (st1 : SweepState) (ri : ℤ) (g : GeoHF) :
    (contenderSample key numColumns c r x y ld i st1 ri g).1.contenderVisits =
      st1.contenderVisits ∧
    (contenderSample key numColumns c r x y ld i st1 ri g).1.offsetVisits =
      st1.offsetVisits := by
  simp only [contenderSample]
  repeat' split
  all_goals
    exact ⟨(contenderEvict_ghost _).1.trans rfl, (contenderEvict_ghost _).2.trans rfl⟩

/-- The offset application tail leaves both ghost lists alone. -/
theorem offsetApply_ghost (key : TKey) (numColumns c r : ℕ) (x y : ℚ)
    (ld : LayerData) (st1 : SweepState) (g : GeoHF) :
    (offsetApply key numColumns c r x y ld st1 g).offsetVisits =
      st1.offsetVisits ∧
    (offsetApply key numColumns c r x y ld st1 g).contenderVisits =
      st1.contenderVisits := by
  simp only [offsetApply]
  repeat' split
  all_goals exact ⟨rfl, rfl⟩

/-- Each offset-loop iteration records exactly its own index in the
`offsetVisits` ghost and leaves the contender ghost alone. -/
theorem offsetStep_ghost (key : TKey) (numColumns c r : ℕ) (x y : ℚ)
    (ld : LayerData) (i : ℕ) (ri : ℤ) (st : SweepState) :
    (offsetStep key numColumns c r x y ld i ri st).offsetVisits =
      st.offsetVisits ++ [i] ∧
    (offsetStep key numColumns c r x y ld i ri st).contenderVisits =
      st.contenderVisits := by
  simp only [offsetStep]
  repeat' split
  all_goals
    first
    | exact ⟨rfl, rfl⟩
    | exact ⟨(offsetApply_ghost _ _ _ _ _ _ _ _ _).1.trans rfl,
        (offsetApply_ghost _ _ _ _ _ _ _ _ _).2.trans rfl⟩

/-- Each contender-loop iteration records exactly its own index in the
`contenderVisits` ghost and leaves the offset ghost alone. -/
theorem contenderStep_ghost (key : TKey) (numColumns c r : ℕ) (x y : ℚ)
    (ld : LayerData) (i : ℕ) (st : SweepState) (ri : ℤ) :
    (contenderStep key numColumns c r x y ld i st ri).1.contenderVisits =
      st.contenderVisits ++ [i] ∧
    (contenderStep key numColumns c r x y ld i st ri).1.offsetVisits =
      st.offsetVisits := by
  simp only [contenderStep]
  repeat' split
  all_goals
    first
    | exact ⟨rfl, rfl⟩
    | exact ⟨(contenderSample_ghost _ _ _ _ _ _ _ _ _ _ _).1.trans rfl,
        (contenderSample_ghost _ _ _ _ _ _ _ _ _ _ _).2.trans rfl⟩

/-- The offset loop run down from index `i < offsets.length` appends
exactly the descending index sequence i, i-1, ..., 0 to the offset ghost
and leaves the contender ghost alone. -/
theorem offsetLoopFrom_visits (key : TKey) (numColumns c r : ℕ) (x y : ℚ)
    (offsets : List LayerData) (ri : ℤ) :
    ∀ (i : ℕ) (st : SweepState), i < offsets.length →
      (offsetLoopFrom key numColumns c r x y offsets ri i st).offsetVisits =
        st.offsetVisits ++ (List.range (i + 1)).reverse ∧
      (offsetLoopFrom key numColumns c r x y offsets ri i st).contenderVisits =
        st.contenderVisits := by
  intro i
  induction i with
  | zero =>
    intro st h
    cases h0 : offsets[0]? with
    | none =>
      exact absurd (List.getElem?_eq_none_iff.mp h0) (by omega)
    | some ld =>
      simp only [offsetLoopFrom, h0]
      have hg := offsetStep_ghost key numColumns c r x y ld 0 ri st
      refine ⟨?_, hg.2⟩
      rw [hg.1]
      congr 1
  | succ i ih =>
    intro st h
    cases h0 : offsets[i + 1]? with
    | none =>
      exact absurd (List.getElem?_eq_none_iff.mp h0) (by omega)
    | some ld =>
      simp only [offsetLoopFrom, h0]
      have hg := offsetStep_ghost key numColumns c r x y ld (i + 1) ri st
      obtain ⟨h1, h2⟩ := ih _ (by omega)
      constructor
      · rw [h1, hg.1]
        have hrange : (List.range (i + 1 + 1)).reverse =
            (i + 1) :: (List.range (i + 1)).reverse := by
          rw [List.range_succ, List.reverse_append]
          rfl
        rw [hrange, List.append_assoc]
        rfl
      · rw [h2, hg.2]

/-- Every index the contender loop records is either inherited from the
starting state or smaller than the number of contender entries (the loop
guard `i < contenders.size()`). -/
theorem contenderLoop_visits (key : TKey) (numColumns c r : ℕ) (x y : ℚ)
    (contenders : List LayerData) :
    ∀ (fuel i : ℕ) (ri : ℤ) (st : SweepState) (j : ℕ),
      j ∈ (contenderLoop key numColumns c r x y contenders
        fuel i ri st).1.contenderVisits →
      j ∈ st.contenderVisits ∨ j < contenders.length := by
  intro fuel
  induction fuel with
  | zero => intro i ri st j hj; exact Or.inl hj
  | succ fuel ih =>
    intro i ri st j hj
    simp only [contenderLoop] at hj
    by_cases hcond : i < contenders.length ∧ ri < 0
    · rw [if_pos hcond] at hj
      cases h0 : contenders[i]? with
      | none => simp only [h0] at hj; exact Or.inl hj
      | some ld =>
        simp only [h0] at hj
        rcases ih (i + 1) _ _ j hj with hin | hlt
        · rw [(contenderStep_ghost key numColumns c r x y ld i st ri).1] at hin
          rcases List.mem_append.mp hin with hmem | hmem
          · exact Or.inl hmem
          · have : j = i := by simpa using hmem
            exact Or.inr (this ▸ hcond.1)
        · exact Or.inr hlt
    · rw [if_neg hcond] at hj
      exact Or.inl hj

/-- Processing one pixel only adds contender-flag subscripts below the
number of contender entries, and the offset loop never touches the
contender ghost. -/
theorem pixelStep_visits (key : TKey) (cs os : List LayerData) (w : ℕ)
    (xm ym dx dy : ℚ) (st : SweepState) (cr : ℕ × ℕ) (j : ℕ)
    (hj : j ∈ (pixelStep key cs os w xm ym dx dy st cr).contenderVisits) :
    j ∈ st.contenderVisits ∨ j < cs.length := by
  have hpres : (pixelStep key cs os w xm ym dx dy st cr).contenderVisits =
      (contenderLoop key w cr.1 cr.2 (xm + dx * (cr.1 : ℚ)) (ym + dy * (cr.2 : ℚ))
        cs cs.length 0 (-1) st).1.contenderVisits := by
    simp only [pixelStep, offsetLoopPixel]
    cases hlen : os.length with
    | zero => rfl
    | succ n =>
      exact (offsetLoopFrom_visits key w cr.1 cr.2 _ _ os _ n _ (by omega)).2
  rw [hpres] at hj
  exact contenderLoop_visits key w cr.1 cr.2 _ _ cs cs.length 0 (-1) st j hj

/-- Folding the pixel steps over any pixel list keeps all recorded
contender-flag subscripts below the number of contender entries. -/
theorem sweepFold_visits (key : TKey) (cs os : List LayerData) (w : ℕ)
    (xm ym dx dy : ℚ) :
    ∀ (pixels : List (ℕ × ℕ)) (st : SweepState) (j : ℕ),
      j ∈ (pixels.foldl (pixelStep key cs os w xm ym dx dy) st).contenderVisits →
      j ∈ st.contenderVisits ∨ j < cs.length := by
  intro pixels
  induction pixels with
  | nil => intro st j hj; exact Or.inl hj
  | cons cr rest ih =>
    intro st j hj
    rcases ih _ j hj with hin | hlt
    · exact pixelStep_visits key cs os w xm ym dx dy st cr j hin
    · exact Or.inr hlt

/-- Every contender-flag subscript consulted during the sweep is below the
number of contender entries. -/
theorem runSweep_visits (env : CompositorEnv) (cs os : List LayerData)
    (hf : HeightField) (key : TKey) (j : ℕ)
    (hj : j ∈ (runSweep env cs os hf key).contenderVisits) : j < cs.length := by
  simp only [runSweep] at hj
  rcases sweepFold_visits _ _ _ _ _ _ _ _ _ _ _ hj with hin | hlt
  · simp [initSweepState] at hin
  · exact hlt

/-- When a populate call runs the sweep, the final state is the sweep of
the collected contenders and offsets. -/
theorem populate_snd (env : CompositorEnv) (layers : List CompositorLayer)
    (hf : HeightField) (key : TKey) (hae : Option ℕ) (st : SweepState)
    (h : (populateHeightFieldAndNormalMap env layers (some hf) key hae).2 = some st) :
    st = runSweep env
      (collectLayers env layers key (keyToUseOf key hae) hf.numColumns).1
      (collectLayers env layers key (keyToUseOf key hae) hf.numColumns).2.1
      hf key := by
  simp only [populateHeightFieldAndNormalMap] at h
  split at h
  · simp at h
  · split at h
    · simp at h
    · simp only [Option.some.injEq] at h
      exact h.symm

/-- Every contender-flag subscript a populate call consults is below the
number of collected contender entries. -/
theorem populate_visits_lt (env : CompositorEnv) (layers : List CompositorLayer)
    (hf : HeightField) (key : TKey) (hae : Option ℕ) (j : ℕ)
    (hj : j ∈ populateContenderVisits env layers (some hf) key hae) :
    j < populateContendersCount env layers (some hf) key hae := by
  unfold populateContenderVisits at hj
  cases hsplit : (populateHeightFieldAndNormalMap env layers (some hf) key hae).2 with
  | none => rw [hsplit] at hj; simp at hj
  | some st =>
    rw [hsplit] at hj
    rw [populate_snd env layers hf key hae st hsplit] at hj
    exact runSweep_visits _ _ _ _ _ _ hj

/-- Cache eviction does not change the `realData` flag. -/
theorem contenderEvict_realData (st3 : SweepState) :
    (contenderEvict st3).realData = st3.realData := by
  simp only [contenderEvict]
  split
  · rfl
  · rfl

/-- Sampling a contender grid sets `realData` exactly when it was already
set or the slot's fallback flag is clear; whether the sample itself is
valid or `NO_DATA` plays no role. -/
theorem contenderSample_realData (key : TKey) (numColumns c r : ℕ) (x y : ℚ)
    (ld : LayerData) (i : ℕ) (st1 : SweepState) (ri : ℤ) (g : GeoHF) :
    ((contenderSample key numColumns c r x y ld i st1 ri g).1.realData = true ↔
      (st1.realData = true ∨ st1.heightFallback 4 i = false)) := by
  simp only [contenderSample]
  by_cases hfb : st1.heightFallback 4 i = false
  · rw [if_pos hfb]
    repeat' split
    all_goals rw [contenderEvict_realData]; simp [hfb]
  · rw [if_neg hfb]
    repeat' split
    all_goals rw [contenderEvict_realData]; simp [hfb]

/-- Applying an offset grid always sets `realData`, regardless of whether
the sample contributes. -/
theorem offsetApply_realData (key : TKey) (numColumns c r : ℕ) (x y : ℚ)
    (ld : LayerData) (st1 : SweepState) (g : GeoHF) :
    (offsetApply key numColumns c r x y ld st1 g).realData = true := by
  simp only [offsetApply]
  repeat' split
  all_goals rfl

/-- A contender iteration sets `realData` exactly when it was already set,
or the slot passes the failed check and holds (or successfully fetches) a
valid grid whose fallback flag is clear; it is independent of the sampled
value. -/
theorem contenderStep_realData (key : TKey) (numColumns c r : ℕ) (x y : ℚ)
    (ld : LayerData) (i : ℕ) (st : SweepState) (ri : ℤ) :
    ((contenderStep key numColumns c r x y ld i st ri).1.realData = true ↔
      (st.realData = true ∨
        (st.heightFailed 4 i = false ∧
          ((∃ g, st.heightFields 4 i = some g ∧ st.heightFallback 4 i = false) ∨
            (st.heightFields 4 i = none ∧
              (fetchLoop ld.layer.keyInLegalRange ld.layer.createHF
                (st.ckeys i)).1.isSome = true))))) := by
  simp only [contenderStep]
  by_cases hfail : st.heightFailed 4 i
  · rw [if_pos hfail]
    simp [hfail]
  · rw [if_neg hfail]
    cases hfield : st.heightFields 4 i with
    | some g =>
      rw [contenderSample_realData]
      simp [hfail, hfield]
    | none =>
      cases hfetch : (fetchLoop ld.layer.keyInLegalRange ld.layer.createHF
          (st.ckeys i)).1 with
      | some g =>
        rw [contenderSample_realData]
        simp [hfail, hfield, hfetch, upd2]
      | none =>
        simp [hfail, hfield, hfetch]

/-- An offset iteration sets `realData` exactly when it was already set,
or the iteration passes the skip checks and holds (or successfully
fetches) a valid grid; it is independent of the sampled value. -/
theorem offsetStep_realData (key : TKey) (numColumns c r : ℕ) (x y : ℚ)
    (ld : LayerData) (i : ℕ) (ri : ℤ) (st : SweepState) :
    ((offsetStep key numColumns c r x y ld i ri st).realData = true ↔
      (st.realData = true ∨
        (¬(0 ≤ ri ∧ (ld.index : ℤ) < ri) ∧ st.offsetFailed 4 i = false ∧
          ((st.offsetFields 4 i).isSome = true ∨
            (ld.layer.createHF ld.key).isSome = true)))) := by
  simp only [offsetStep]
  by_cases hskip : 0 ≤ ri ∧ (ld.index : ℤ) < ri
  · rw [if_pos hskip]
    simp [hskip]
  · rw [if_neg hskip]
    by_cases hfail : st.offsetFailed 4 i
    · rw [if_pos hfail]
      simp [hskip, hfail]
    · rw [if_neg hfail]
      cases hfield : st.offsetFields 4 i with
      | some g =>
        rw [offsetApply_realData]
        simp [hskip, hfail, hfield]
      | none =>
        cases hcreate : ld.layer.createHF ld.key with
        | some g =>
          rw [offsetApply_realData]
          simp [hskip, hfail, hfield, hcreate]
        | none =>
          simp [hskip, hfail, hfield, hcreate]

/-- Eviction clears fallback flags; it never sets one. -/
theorem contenderEvict_fallback (st3 : SweepState) (n j : ℕ)
    (h : st3.heightFallback n j = false) :
    (contenderEvict st3).heightFallback n j = false := by
  simp only [contenderEvict]
  split
  · rfl
  · exact h

/-- The contender sampling tail never touches fallback flags except
through eviction, which clears them. -/
theorem contenderSample_fallback (key : TKey) (numColumns c r : ℕ) (x y : ℚ)
    (ld : LayerData) (i : ℕ) (st1 : SweepState) (ri : ℤ) (g : GeoHF) (n j : ℕ)
    (h : st1.heightFallback n j = false) :
    (contenderSample key numColumns c r x y ld i st1 ri g).1.heightFallback n j =
      false := by
  simp only [contenderSample]
  repeat' split
  all_goals exact contenderEvict_fallback _ n j (by simpa using h)

/-- A contender iteration never sets a fallback flag: the assignment of
line 994 compares `actualKey` with the very key it aliases, so the flag
written on a successful fetch is always false, and eviction only clears
flags. Together with the all-false initial state, `heightFallback` stays
false throughout the sweep. -/
theorem contenderStep_fallback (key : TKey) (numColumns c r : ℕ) (x y : ℚ)
    (ld : LayerData) (i : ℕ) (st : SweepState) (ri : ℤ) (n j : ℕ)
    (h : st.heightFallback n j = false) :
    (contenderStep key numColumns c r x y ld i st ri).1.heightFallback n j =
      false := by
  simp only [contenderStep]
  by_cases hfail : st.heightFailed 4 i
  · rw [if_pos hfail]
    exact h
  · rw [if_neg hfail]
    cases hfield : st.heightFields 4 i with
    | some g => exact contenderSample_fallback _ _ _ _ _ _ _ _ _ _ _ n j h
    | none =>
      cases hfetch : (fetchLoop ld.layer.keyInLegalRange ld.layer.createHF
          (st.ckeys i)).1 with
      | some g =>
        refine contenderSample_fallback _ _ _ _ _ _ _ _ _ _ _ n j ?_
        simp only [upd2]
        split
        · simp
        · exact h
      | none => exact h

/-- An offset iteration never touches the contender fallback flags. -/
theorem offsetStep_fallback (key : TKey) (numColumns c r : ℕ) (x y : ℚ)
    (ld : LayerData) (i : ℕ) (ri : ℤ) (st : SweepState) :
    (offsetStep key numColumns c r x y ld i ri st).heightFallback =
      st.heightFallback := by
  have happ : ∀ (st1 : SweepState) (g : GeoHF),
      (offsetApply key numColumns c r x y ld st1 g).heightFallback =
        st1.heightFallback := by
    intro st1 g
    simp only [offsetApply]
    repeat' split
    all_goals rfl
  simp only [offsetStep]
  repeat' split
  all_goals first
    | rfl
    | exact (happ _ _).trans rfl

/-- One collection step preserves the invariant that `numFallbackLayers`
counts exactly the collected entries classified as fallback. -/
theorem collectLayer_count (env : CompositorEnv) (key keyToUse : TKey)
    (numColumns : ℕ) (layer : CompositorLayer) (i : ℕ)
    (acc : List LayerData × List LayerData × ℕ)
    (h : acc.2.2 =
      acc.1.countP (fallbackClassified env keyToUse numColumns) +
        acc.2.1.countP (fallbackClassified env keyToUse numColumns)) :
    (collectLayer env key keyToUse numColumns layer i acc).2.2 =
      (collectLayer env key keyToUse numColumns layer i acc).1.countP
        (fallbackClassified env keyToUse numColumns) +
      (collectLayer env key keyToUse numColumns layer i acc).2.1.countP
        (fallbackClassified env keyToUse numColumns) := by
  simp only [collectLayer]
  split
  · split
    · exact h
    · split
      · by_cases hfb : env.mapResolution keyToUse numColumns layer.tileSize ≠
            layer.bestAvailableTileKey
              (env.mapResolution keyToUse numColumns layer.tileSize)
        · split
          · simp [List.countP_append, List.countP_cons, fallbackClassified, hfb,
              if_pos hfb, h]
            omega
          · simp [List.countP_append, List.countP_cons, fallbackClassified, hfb,
              if_pos hfb, h]
            omega
        · split
          · simp [List.countP_append, List.countP_cons, fallbackClassified, hfb,
              if_neg hfb, h]
          · simp [List.countP_append, List.countP_cons, fallbackClassified, hfb,
              if_neg hfb, h]
      · exact h
  · exact h

/-- The collection walk preserves the fallback-count invariant. -/
theorem collectFrom_count (env : CompositorEnv) (layers : List CompositorLayer)
    (key keyToUse : TKey) (numColumns : ℕ) :
    ∀ (i : ℕ) (acc : List LayerData × List LayerData × ℕ),
      acc.2.2 =
        acc.1.countP (fallbackClassified env keyToUse numColumns) +
          acc.2.1.countP (fallbackClassified env keyToUse numColumns) →
      (collectFrom env layers key keyToUse numColumns i acc).2.2 =
        (collectFrom env layers key keyToUse numColumns i acc).1.countP
          (fallbackClassified env keyToUse numColumns) +
        (collectFrom env layers key keyToUse numColumns i acc).2.1.countP
          (fallbackClassified env keyToUse numColumns) := by
  intro i
  induction i with
  | zero =>
    intro acc h
    simp only [collectFrom]
    cases h0 : layers[0]? with
    | none => exact h
    | some layer => exact collectLayer_count env key keyToUse numColumns layer 0 acc h
  | succ i ih =>
    intro acc h
    simp only [collectFrom]
    cases h0 : layers[i + 1]? with
    | none => exact ih acc h
    | some layer =>
      exact ih _ (collectLayer_count env key keyToUse numColumns layer (i + 1) acc h)

/-- `numFallbackLayers` equals the number of collected entries (contender
or offset) whose best available key differs from the resolution-mapped
key. -/
theorem collectLayers_count (env : CompositorEnv) (layers : List CompositorLayer)
    (key keyToUse : TKey) (numColumns : ℕ) :
    (collectLayers env layers key keyToUse numColumns).2.2 =
      (collectLayers env layers key keyToUse numColumns).1.countP
        (fallbackClassified env keyToUse numColumns) +
      (collectLayers env layers key keyToUse numColumns).2.1.countP
        (fallbackClassified env keyToUse numColumns) := by
  simp only [collectLayers]
  cases layers.length with
  | zero => rfl
  | succ n => exact collectFrom_count env layers key keyToUse numColumns n _ (by rfl)

/-- Both early exits of the compositor return false without constructing a
sweep state. -/
theorem populate_early_false (env : CompositorEnv) (layers : List CompositorLayer)
    (hf : HeightField) (key : TKey) (hae : Option ℕ)
    (h : ((collectLayers env layers key (keyToUseOf key hae) hf.numColumns).1.isEmpty &&
        (collectLayers env layers key (keyToUseOf key hae) hf.numColumns).2.1.isEmpty) = true ∨
      (collectLayers env layers key (keyToUseOf key hae) hf.numColumns).1.length +
        (collectLayers env layers key (keyToUseOf key hae) hf.numColumns).2.1.length =
        (collectLayers env layers key (keyToUseOf key hae) hf.numColumns).2.2) :
    populateHeightFieldAndNormalMap env layers (some hf) key hae = (false, none) := by
  simp only [populateHeightFieldAndNormalMap]
  rcases h with h | h
  · rw [if_pos h]
  · by_cases h0 : ((collectLayers env layers key (keyToUseOf key hae)
        hf.numColumns).1.isEmpty &&
        (collectLayers env layers key (keyToUseOf key hae) hf.numColumns).2.1.isEmpty) = true
    · rw [if_pos h0]
    · rw [if_neg h0, if_pos h]

/-- C3 (amended): for every pixel, the offset loop visits the offset
entries in order of decreasing stored index — offsets[size-1] first,
offsets[0] last — so each pixel appends exactly the reversed index range
to the visit record, and the additive offset applications happen in that
order. -/
theorem offsets_visited_in_decreasing_order (key : TKey) (numColumns c r : ℕ)
    (x y : ℚ) (offsets : List LayerData) (ri : ℤ) (st : SweepState) :
    (offsetLoopPixel key numColumns c r x y offsets ri st).offsetVisits =
      st.offsetVisits ++ (List.range offsets.length).reverse := by
  simp only [offsetLoopPixel]
  cases hlen : offsets.length with
  | zero => simp
  | succ n =>
    have hvis := (offsetLoopFrom_visits key numColumns c r x y offsets ri n st
      (by omega)).1
    rw [hvis]

/-- C3 counterexample: a populate call with two offset layers visits the
offset entries at every pixel in the order 1, 0 — not in increasing stored
index order (which would give 0, 1). -/
theorem offsets_visited_descending_example :
    populateOffsetVisits ⟨fun _ => (0, 0, 1, 1), fun k _ _ => k⟩
      [⟨true, true, true, 257, fun _ => true, fun k => k,
        fun _ => some ⟨fun _ _ => some (FloatVal.val 1)⟩⟩,
       ⟨true, true, true, 257, fun _ => true, fun k => k,
        fun _ => some ⟨fun _ _ => some (FloatVal.val 1)⟩⟩]
      (some ⟨2, 2, List.replicate 4 (FloatVal.val 0), 0, 0, 0, 0, 0⟩)
      (TKey.key 0 0 0 0) none = [1, 0, 1, 0, 1, 0, 1, 0] ∧
    [1, 0, 1, 0, 1, 0, 1, 0] ≠ [0, 1, 0, 1, 0, 1, 0, 1] :=
  ⟨by decide, by decide⟩

/-- C1 (amended): the boolean result tracks grid loads, not written
samples. During the sweep `realData` becomes true exactly when a contender
iteration passes the failed check and holds — or successfully fetches — a
valid grid whose fallback flag is clear, or when an offset iteration
passes its skip checks and holds — or successfully fetches — a valid
grid; in every case independently of the sampled value, so the flag can be
true although no output sample was written. Moreover the contender
fallback flag can never become true (line 994 compares the aliased
`actualKey` with itself, and eviction only clears flags), so any
successfully loaded contender grid counts as real data even when it is
fallback data. -/
theorem realData_tracks_grid_loads :
    (∀ (key : TKey) (numColumns c r : ℕ) (x y : ℚ) (ld : LayerData) (i : ℕ)
        (st : SweepState) (ri : ℤ),
      ((contenderStep key numColumns c r x y ld i st ri).1.realData = true ↔
        (st.realData = true ∨
          (st.heightFailed 4 i = false ∧
            ((∃ g, st.heightFields 4 i = some g ∧ st.heightFallback 4 i = false) ∨
              (st.heightFields 4 i = none ∧
                (fetchLoop ld.layer.keyInLegalRange ld.layer.createHF
                  (st.ckeys i)).1.isSome = true)))))) ∧
    (∀ (key : TKey) (numColumns c r : ℕ) (x y : ℚ) (ld : LayerData) (i : ℕ)
        (st : SweepState) (ri : ℤ) (n j : ℕ),
      st.heightFallback n j = false →
      (contenderStep key numColumns c r x y ld i st ri).1.heightFallback n j = false) ∧
    (∀ (key : TKey) (numColumns c r : ℕ) (x y : ℚ) (ld : LayerData) (i : ℕ)
        (ri : ℤ) (st : SweepState),
      ((offsetStep key numColumns c r x y ld i ri st).realData = true ↔
        (st.realData = true ∨
          (¬(0 ≤ ri ∧ (ld.index : ℤ) < ri) ∧ st.offsetFailed 4 i = false ∧
            ((st.offsetFields 4 i).isSome = true ∨
              (ld.layer.createHF ld.key).isSome = true))))) ∧
    (∀ (key : TKey) (numColumns c r : ℕ) (x y : ℚ) (ld : LayerData) (i : ℕ)
        (ri : ℤ) (st : SweepState),
      (offsetStep key numColumns c r x y ld i ri st).heightFallback =
        st.heightFallback) :=
  ⟨contenderStep_realData, contenderStep_fallback, offsetStep_realData,
    offsetStep_fallback⟩

/-- Witness for C1: a concrete offset iteration whose grid is fetched but
yields only `NO_DATA` samples still sets `realData`. -/
theorem realData_tracks_grid_loads_witness :
    (offsetStep (TKey.key 0 0 0 0) 2 0 0 0 0
      ⟨⟨true, true, true, 257, fun _ => true, fun k => k,
        fun _ => some ⟨fun _ _ => some NO_DATA_VALUE⟩⟩, TKey.key 0 0 0 0, 0⟩
      0 (-1)
      (initSweepState ⟨2, 2, List.replicate 4 (FloatVal.val 0), 0, 0, 0, 0, 0⟩ [])).realData
      = true :=
  (realData_tracks_grid_loads.2.2.1 (TKey.key 0 0 0 0) 2 0 0 0 0
    ⟨⟨true, true, true, 257, fun _ => true, fun k => k,
      fun _ => some ⟨fun _ _ => some NO_DATA_VALUE⟩⟩, TKey.key 0 0 0 0, 0⟩
    0 (-1)
    (initSweepState ⟨2, 2, List.replicate 4 (FloatVal.val 0), 0, 0, 0, 0, 0⟩ [])).mpr
    (Or.inr ⟨by decide, rfl, Or.inr rfl⟩)

/-- C1 counterexample: a populate call with a single offset layer whose
grid yields only `NO_DATA` samples returns true even though not a single
output sample was written — every output sample still carries its input
value 0 after the call, there are no contenders at all, and the offset
contributed nothing. -/
theorem populate_true_without_written_sample :
    (populateHeightFieldAndNormalMap ⟨fun _ => (0, 0, 1, 1), fun k _ _ => k⟩
      [⟨true, true, true, 257, fun _ => true, fun k => k,
        fun _ => some ⟨fun _ _ => some NO_DATA_VALUE⟩⟩]
      (some ⟨2, 2, List.replicate 4 (FloatVal.val 0), 0, 0, 0, 0, 0⟩)
      (TKey.key 0 0 0 0) none).1 = true ∧
    populateGridAt ⟨fun _ => (0, 0, 1, 1), fun k _ _ => k⟩
      [⟨true, true, true, 257, fun _ => true, fun k => k,
        fun _ => some ⟨fun _ _ => some NO_DATA_VALUE⟩⟩]
      (some ⟨2, 2, List.replicate 4 (FloatVal.val 0), 0, 0, 0, 0, 0⟩)
      (TKey.key 0 0 0 0) none 0 0 = FloatVal.val 0 ∧
    populateGridAt ⟨fun _ => (0, 0, 1, 1), fun k _ _ => k⟩
      [⟨true, true, true, 257, fun _ => true, fun k => k,
        fun _ => some ⟨fun _ _ => some NO_DATA_VALUE⟩⟩]
      (some ⟨2, 2, List.replicate 4 (FloatVal.val 0), 0, 0, 0, 0, 0⟩)
      (TKey.key 0 0 0 0) none 1 0 = FloatVal.val 0 ∧
    populateGridAt ⟨fun _ => (0, 0, 1, 1), fun k _ _ => k⟩
      [⟨true, true, true, 257, fun _ => true, fun k => k,
        fun _ => some ⟨fun _ _ => some NO_DATA_VALUE⟩⟩]
      (some ⟨2, 2, List.replicate 4 (FloatVal.val 0), 0, 0, 0, 0, 0⟩)
      (TKey.key 0 0 0 0) none 0 1 = FloatVal.val 0 ∧
    populateGridAt ⟨fun _ => (0, 0, 1, 1), fun k _ _ => k⟩
      [⟨true, true, true, 257, fun _ => true, fun k => k,
        fun _ => some ⟨fun _ _ => some NO_DATA_VALUE⟩⟩]
      (some ⟨2, 2, List.replicate 4 (FloatVal.val 0), 0, 0, 0, 0, 0⟩)
      (TKey.key 0 0 0 0) none 1 1 = FloatVal.val 0 ∧
    FloatVal.val 0 ≠ NO_DATA_VALUE :=
  ⟨by decide, by decide, by decide, by decide, by decide, by decide⟩

/-- C8: `populateHeightFieldAndNormalMap` returns false without building
any sweep state whenever the collected contender and offset lists are both
empty, or the number of entries classified as fallback (best available
key differing from the resolution-mapped key, which is exactly what
`numFallbackLayers` counts) equals the total number of collected
entries. -/
theorem populate_bails_on_empty_or_all_fallback :
    (∀ (env : CompositorEnv) (layers : List CompositorLayer)
        (key keyToUse : TKey) (numColumns : ℕ),
      (collectLayers env layers key keyToUse numColumns).2.2 =
        (collectLayers env layers key keyToUse numColumns).1.countP
          (fallbackClassified env keyToUse numColumns) +
        (collectLayers env layers key keyToUse numColumns).2.1.countP
          (fallbackClassified env keyToUse numColumns)) ∧
    (∀ (env : CompositorEnv) (layers : List CompositorLayer) (hf : HeightField)
        (key : TKey) (hae : Option ℕ),
      (((collectLayers env layers key (keyToUseOf key hae) hf.numColumns).1.isEmpty &&
          (collectLayers env layers key (keyToUseOf key hae) hf.numColumns).2.1.isEmpty) = true ∨
        (collectLayers env layers key (keyToUseOf key hae) hf.numColumns).1.length +
          (collectLayers env layers key (keyToUseOf key hae) hf.numColumns).2.1.length =
          (collectLayers env layers key (keyToUseOf key hae) hf.numColumns).2.2) →
      populateHeightFieldAndNormalMap env layers (some hf) key hae = (false, none)) :=
  ⟨collectLayers_count, populate_early_false⟩

/-- Witness for C8: a single contender classified as fallback (its best
available key is the parent of the mapped key) makes populate return
false before any sweep. -/
theorem populate_bails_on_empty_or_all_fallback_witness :
    ((collectLayers ⟨fun _ => (0, 0, 1, 1), fun k _ _ => k⟩
        [⟨true, true, false, 257, fun _ => true, fun k => k.createParentKey,
          fun _ => none⟩]
        (TKey.key 1 0 0 0) (keyToUseOf (TKey.key 1 0 0 0) none) 2).1.length +
      (collectLayers ⟨fun _ => (0, 0, 1, 1), fun k _ _ => k⟩
        [⟨true, true, false, 257, fun _ => true, fun k => k.createParentKey,
          fun _ => none⟩]
        (TKey.key 1 0 0 0) (keyToUseOf (TKey.key 1 0 0 0) none) 2).2.1.length =
      (collectLayers ⟨fun _ => (0, 0, 1, 1), fun k _ _ => k⟩
        [⟨true, true, false, 257, fun _ => true, fun k => k.createParentKey,
          fun _ => none⟩]
        (TKey.key 1 0 0 0) (keyToUseOf (TKey.key 1 0 0 0) none) 2).2.2) ∧
    populateHeightFieldAndNormalMap ⟨fun _ => (0, 0, 1, 1), fun k _ _ => k⟩
      [⟨true, true, false, 257, fun _ => true, fun k => k.createParentKey,
        fun _ => none⟩]
      (some ⟨2, 2, List.replicate 4 (FloatVal.val 0), 0, 0, 0, 0, 0⟩)
      (TKey.key 1 0 0 0) none = (false, none) :=
  ⟨by decide,
    populate_bails_on_empty_or_all_fallback.2 _ _
      ⟨2, 2, List.replicate 4 (FloatVal.val 0), 0, 0, 0, 0, 0⟩
      (TKey.key 1 0 0 0) none (Or.inr (by decide))⟩

/-- C10 (amended): the flag vectors `heightFallback[n]`, `heightFailed[n]`
and `offsetFailed[n]` are assigned the fixed length 9 during setup,
independent of the number of contender or offset entries; every flag
subscript the sweep consults is below the number of collected contenders,
so every access is in bounds whenever there are at most 9 contenders;
with more than nine contenders an out-of-bounds subscript (at least 9,
the vector length) is reached whenever the sweep walks past the first
nine entries — as in the concrete ten-contender call below whose drivers
all fail — though not in every such call. -/
theorem flag_vectors_fixed_length_nine :
    (∀ n : ℕ, (heightFallbackAssign n).length = 9 ∧
      (heightFailedAssign n).length = 9 ∧ (offsetFailedAssign n).length = 9) ∧
    (∀ (env : CompositorEnv) (layers : List CompositorLayer) (hf : HeightField)
        (key : TKey) (hae : Option ℕ) (j : ℕ),
      j ∈ populateContenderVisits env layers (some hf) key hae →
      j < populateContendersCount env layers (some hf) key hae) ∧
    (∀ (env : CompositorEnv) (layers : List CompositorLayer) (hf : HeightField)
        (key : TKey) (hae : Option ℕ) (j : ℕ),
      populateContendersCount env layers (some hf) key hae ≤ 9 →
      j ∈ populateContenderVisits env layers (some hf) key hae →
      j < (heightFailedAssign
        (populateContendersCount env layers (some hf) key hae)).length) ∧
    (populateContendersCount ⟨fun _ => (0, 0, 1, 1), fun k _ _ => k⟩
        (List.replicate 10 ⟨true, true, false, 257, fun _ => true, fun k => k,
          fun _ => none⟩)
        (some ⟨2, 2, List.replicate 4 (FloatVal.val 0), 0, 0, 0, 0, 0⟩)
        (TKey.key 0 0 0 0) none = 10 ∧
      9 ∈ populateContenderVisits ⟨fun _ => (0, 0, 1, 1), fun k _ _ => k⟩
        (List.replicate 10 ⟨true, true, false, 257, fun _ => true, fun k => k,
          fun _ => none⟩)
        (some ⟨2, 2, List.replicate 4 (FloatVal.val 0), 0, 0, 0, 0, 0⟩)
        (TKey.key 0 0 0 0) none ∧
      ¬(9 < (heightFailedAssign 10).length)) := by
  refine ⟨?_, ?_, ?_, by decide, by decide, by decide⟩
  · intro n
    exact ⟨rfl, rfl, rfl⟩
  · intro env layers hf key hae j hj
    exact populate_visits_lt env layers hf key hae j hj
  · intro env layers hf key hae j hle hj
    have := populate_visits_lt env layers hf key hae j hj
    have hlen : (heightFailedAssign
        (populateContendersCount env layers (some hf) key hae)).length = 9 := rfl
    omega

/-- Witness for C10: the second conjunct applied at the concrete
ten-contender call of the fourth conjunct. -/
theorem flag_vectors_fixed_length_nine_witness :
    9 ∈ populateContenderVisits ⟨fun _ => (0, 0, 1, 1), fun k _ _ => k⟩
      (List.replicate 10 ⟨true, true, false, 257, fun _ => true, fun k => k,
        fun _ => none⟩)
      (some ⟨2, 2, List.replicate 4 (FloatVal.val 0), 0, 0, 0, 0, 0⟩)
      (TKey.key 0 0 0 0) none ∧
    9 < populateContendersCount ⟨fun _ => (0, 0, 1, 1), fun k _ _ => k⟩
      (List.replicate 10 ⟨true, true, false, 257, fun _ => true, fun k => k,
        fun _ => none⟩)
      (some ⟨2, 2, List.replicate 4 (FloatVal.val 0), 0, 0, 0, 0, 0⟩)
      (TKey.key 0 0 0 0) none :=
  ⟨by decide,
    flag_vectors_fixed_length_nine.2.1 _ _ _ _ none 9 (by decide)⟩

/-- C10 counterexample: a call with ten contenders whose first contender
resolves every pixel consults only flag subscript 0, which is within the
nine-element flag vectors — so a call with more than nine contender
layers does not necessarily index the flag vectors out of bounds. -/
theorem ten_contenders_all_accesses_in_bounds :
    populateContendersCount ⟨fun _ => (0, 0, 1, 1), fun k _ _ => k⟩
      (List.replicate 10 ⟨true, true, false, 257, fun _ => true, fun k => k,
        fun _ => some ⟨fun _ _ => some (FloatVal.val 5)⟩⟩)
      (some ⟨2, 2, List.replicate 4 (FloatVal.val 0), 0, 0, 0, 0, 0⟩)
      (TKey.key 0 0 0 0) none = 10 ∧
    populateContenderVisits ⟨fun _ => (0, 0, 1, 1), fun k _ _ => k⟩
      (List.replicate 10 ⟨true, true, false, 257, fun _ => true, fun k => k,
        fun _ => some ⟨fun _ _ => some (FloatVal.val 5)⟩⟩)
      (some ⟨2, 2, List.replicate 4 (FloatVal.val 0), 0, 0, 0, 0, 0⟩)
      (TKey.key 0 0 0 0) none = [0, 0, 0, 0] ∧
    (heightFailedAssign 10).length = 9 ∧ (0 : ℕ) < 9 :=
  ⟨by decide, by decide, by decide, by decide⟩
